import Mathlib

/-
Verification of the bus-fleet backend (proyecto-buses).

Shallow embedding of the data model and of the operations of the backend:
the SQLAlchemy model Bus (src/backend/app/models/buses.py), the reference
tables EstadoBus and TipoCombustible (src/backend/app/models/estados_tipos.py),
the pydantic schemas (src/backend/app/schemas/buses.py), the repository layer
(src/backend/app/crud/buses.py) and the HTTP handlers (src/backend/app/main.py
and src/backend/app/api/v1/endpoints/buses.py).

The relational store is modelled as lists of rows; SQL filters become list
filters, UPDATE ... WHERE becomes a map over rows, and psycopg2 or pydantic
failures become an explicit error type.  Timestamps are abstract Nat clock
values passed by the caller (NOW() in the source).  The Python expression
s.upper().replace(chr(45), empty).replace(chr(32), empty) is rendered as a
per-character uppercase map followed by a filter dropping the dash and the
space, which is extensionally the same operation on strings.
-/

/-- Typed error taxonomy of the backend.  The source signals these as HTTP 400
or 404 responses with distinguishing messages; the spec names them
InvalidPlateFormat, InvalidYear, InvalidCapacity, DuplicatePlate, UnknownState,
UnknownFuelType and NotFound.  The update endpoints additionally reject a body
with no fields to update. -/
inductive ApiError where
  | invalidPlateFormat
  | invalidYear
  | invalidCapacity
  | duplicatePlate
  | unknownState
  | unknownFuelType
  | notFound
  | noFieldsToUpdate
  deriving DecidableEq, Repr

/-- Row of the reference table estados_buses (models/estados_tipos.py). -/
structure EstadoBus where
  id : Nat
  codigo : String
  nombre : String
  deriving DecidableEq, Repr

/-- Row of the reference table tipos_combustible (models/estados_tipos.py). -/
structure TipoCombustible where
  id : Nat
  codigo : String
  nombre : String
  deriving DecidableEq, Repr

/-- Row of the table buses (models/buses.py).  Only the columns the claims
touch are carried; anio stands for the source column written with a tilde n.
kilometraje_actual is a nullable integer column with default 0, so it is an
Option; fecha_actualizacion is an abstract clock value. -/
structure Bus where
  id : Nat
  patente : String
  codigo_interno : Option String := none
  marca : String
  modelo : String
  anio : Int
  capacidad_sentados : Int
  estado_id : Nat
  tipo_combustible_id : Nat
  kilometraje_actual : Option Nat := some 0
  esta_activo : Bool := true
  fecha_actualizacion : Nat := 0
  deriving DecidableEq, Repr

/-- The relational store: the buses table and the two reference tables. -/
structure DB where
  buses : List Bus
  estados : List EstadoBus
  tipos_combustible : List TipoCombustible
  deriving DecidableEq, Repr

deriving instance DecidableEq for Except

/-- Per-character uppercase, rendering the Python str.upper() on the ASCII
plate and search strings the backend handles. -/
def aMayusculas (s : String) : String :=
  String.mk (s.data.map Char.toUpper)

/-- Plate normalization, the inline expression
patente.upper().replace(dash, empty).replace(space, empty) used in
schemas/buses.py, crud/buses.py and both endpoint files: uppercase, then drop
every dash and every space character. -/
def normalizar_patente (s : String) : String :=
  String.mk ((s.data.map Char.toUpper).filter (fun c => !(c == '-' || c == ' ')))

/-- Decides whether the needle is a leading segment of the haystack, on
character lists. -/
def segmentoInicial : List Char → List Char → Bool
  | [], _ => true
  | _ :: _, [] => false
  | a :: as, b :: bs => a == b && segmentoInicial as bs

/-- Decides whether the needle occurs contiguously anywhere in the haystack,
on character lists. -/
def contieneSegmento (aguja : List Char) : List Char → Bool
  | [] => aguja.isEmpty
  | c :: resto => segmentoInicial aguja (c :: resto) || contieneSegmento aguja resto

/-- SQL ilike with wildcards on both sides: case-insensitive substring match
of the search term against a column value. -/
def ilike (columna termino : String) : Bool :=
  contieneSegmento (termino.data.map Char.toLower) (columna.data.map Char.toLower)

/-- Maintenance predicate Bus.necesita_mantenimiento (models/buses.py lines
81 to 88).  The Python guard is a truthiness test on both the odometer value
and the interval, so a NULL or zero odometer (and a zero interval)
short-circuit to False; otherwise the bus is flagged when the odometer modulo
the interval is below 1000. -/
def Bus.necesita_mantenimiento (b : Bus) (kilometraje_limite : Nat) : Bool :=
  match b.kilometraje_actual with
  | some k =>
    if k != 0 && kilometraje_limite != 0 then
      decide (k % kilometraje_limite < 1000)
    else
      false
  | none => false

/-- Modelled from the spec: the repository operation list_maintenance_due is
not present under src (the source only defines the row predicate
Bus.necesita_mantenimiento); per the spec wording it returns the active
records flagged by that predicate. -/
def list_maintenance_due (db : DB) (mileage_interval : Nat) : List Bus :=
  db.buses.filter (fun b => b.esta_activo && b.necesita_mantenimiento mileage_interval)

/-- Repository read find_all_with_details (crud/buses.py lines 27 to 34):
active rows with OFFSET skip LIMIT limit. -/
def find_all_with_details (db : DB) (skip : Nat) (limit : Nat) : List Bus :=
  (((db.buses.filter (fun b => b.esta_activo))).drop skip).take limit

/-- Repository read find_by_id (crud/buses.py lines 36 to 41): first row with
the given id that is still active. -/
def find_by_id (db : DB) (bus_id : Nat) : Option Bus :=
  (db.buses.filter (fun b => b.id == bus_id && b.esta_activo)).head?

/-- Repository read find_by_patente (crud/buses.py lines 43 to 49): the input
plate is normalized, then matched against active rows. -/
def find_by_patente (db : DB) (patente : String) : Option Bus :=
  (db.buses.filter
    (fun b => b.patente == normalizar_patente patente && b.esta_activo)).head?

/-- Repository read find_by_estado_codigo (crud/buses.py lines 51 to 60):
active rows joined to the state reference row whose codigo matches the
uppercased input. -/
def find_by_estado_codigo (db : DB) (codigo_estado : String) : List Bus :=
  db.buses.filter (fun b =>
    db.estados.any (fun e => e.id == b.estado_id && e.codigo == aMayusculas codigo_estado)
      && b.esta_activo)

/-- Repository read find_by_marca (crud/buses.py lines 62 to 70): active rows
whose marca matches the term case-insensitively as a substring. -/
def find_by_marca (db : DB) (marca : String) : List Bus :=
  db.buses.filter (fun b => ilike b.marca marca && b.esta_activo)

/-- Repository read search (crud/buses.py lines 72 to 86): active rows
matching the term in patente, marca, modelo or codigo_interno.  An ilike
against a NULL column is not a match in SQL, hence the none branch. -/
def search (db : DB) (termino : String) : List Bus :=
  db.buses.filter (fun b =>
    (ilike b.patente termino || ilike b.marca termino || ilike b.modelo termino ||
      (match b.codigo_interno with
        | some c => ilike c termino
        | none => false))
      && b.esta_activo)

/-- Input shape of the create endpoint (BusCrear in main.py lines 19 to 26 and
endpoints/buses.py lines 27 to 34): required plate, make, model, year, seat
capacity and the two foreign keys, optional internal code and odometer with
pydantic default 0. -/
structure BusCrear where
  patente : String
  marca : String
  modelo : String
  anio : Int
  capacidad_sentados : Int
  estado_id : Nat
  tipo_combustible_id : Nat
  codigo_interno : Option String := none
  kilometraje_actual : Option Nat := some 0
  deriving DecidableEq, Repr

/-- Create handler crear_bus (main.py lines 94 to 215; the router version in
endpoints/buses.py lines 106 to 195 performs the same checks in the same
order): normalize the plate and check its length, check the year against the
current year, check the seat capacity against 1..45, check plate uniqueness
against the whole buses table (the SQL has no esta_activo filter), check both
foreign keys, then INSERT a fresh active row. -/
def crear_bus (db : DB) (anio_actual : Int) (new_id : Nat) (d : BusCrear) :
    Except ApiError (DB × Bus) :=
  let patente := normalizar_patente d.patente
  if patente.length < 6 || patente.length > 8 then
    .error .invalidPlateFormat
  else if d.anio < 1980 || d.anio > anio_actual + 1 then
    .error .invalidYear
  else if d.capacidad_sentados < 1 || d.capacidad_sentados > 45 then
    .error .invalidCapacity
  else if db.buses.any (fun b => b.patente == patente) then
    .error .duplicatePlate
  else if !(db.estados.any (fun e => e.id == d.estado_id)) then
    .error .unknownState
  else if !(db.tipos_combustible.any (fun t => t.id == d.tipo_combustible_id)) then
    .error .unknownFuelType
  else
    let bus : Bus :=
      { id := new_id
        patente := patente
        codigo_interno := d.codigo_interno
        marca := d.marca
        modelo := d.modelo
        anio := d.anio
        capacidad_sentados := d.capacidad_sentados
        estado_id := d.estado_id
        tipo_combustible_id := d.tipo_combustible_id
        kilometraje_actual := d.kilometraje_actual
        esta_activo := true }
    .ok ({ db with buses := db.buses ++ [bus] }, bus)

/-- Input shape of the update endpoints (BusActualizar in main.py lines 29 to
43 and endpoints/buses.py lines 36 to 50): every field optional, absent fields
untouched. -/
structure BusActualizar where
  patente : Option String := none
  marca : Option String := none
  modelo : Option String := none
  anio : Option Int := none
  capacidad_sentados : Option Int := none
  estado_id : Option Nat := none
  tipo_combustible_id : Option Nat := none
  codigo_interno : Option String := none
  kilometraje_actual : Option Nat := none
  deriving DecidableEq, Repr

/-- Effect of the dynamic UPDATE built by actualizar_bus: every supplied field
overwrites the stored value (the plate already normalized) and
fecha_actualizacion is set to NOW(). -/
def aplicar_actualizacion (b : Bus) (u : BusActualizar) (ahora : Nat) : Bus :=
  { b with
    patente := match u.patente with
      | some p => normalizar_patente p
      | none => b.patente
    marca := u.marca.getD b.marca
    modelo := u.modelo.getD b.modelo
    anio := u.anio.getD b.anio
    capacidad_sentados := u.capacidad_sentados.getD b.capacidad_sentados
    estado_id := u.estado_id.getD b.estado_id
    tipo_combustible_id := u.tipo_combustible_id.getD b.tipo_combustible_id
    codigo_interno := match u.codigo_interno with
      | some c => some c
      | none => b.codigo_interno
    kilometraje_actual := match u.kilometraje_actual with
      | some k => some k
      | none => b.kilometraje_actual
    fecha_actualizacion := ahora }

/-- True when the request body supplies at least one field, mirroring the
campos_actualizar emptiness test of the update handlers. -/
def tiene_campos (u : BusActualizar) : Bool :=
  u.patente.isSome || u.marca.isSome || u.modelo.isSome || u.anio.isSome ||
  u.capacidad_sentados.isSome || u.estado_id.isSome || u.tipo_combustible_id.isSome ||
  u.codigo_interno.isSome || u.kilometraje_actual.isSome

/-- Update handler actualizar_bus (main.py lines 385 to 547): require an
active row with the given id, then validate each supplied field in source
order - plate format, plate uniqueness among the other rows (any active
state), year range, capacity 1..45, both foreign keys - then require at least
one supplied field, and only then execute the single dynamic UPDATE.  Every
validation failure happens before the write, so an error leaves the store
untouched. -/
def actualizar_bus (db : DB) (anio_actual : Int) (ahora : Nat) (bus_id : Nat)
    (u : BusActualizar) : Except ApiError DB :=
  if !(db.buses.any (fun b => b.id == bus_id && b.esta_activo)) then
    .error .notFound
  else if (match u.patente with
      | some p =>
        (normalizar_patente p).length < 6 || (normalizar_patente p).length > 8
      | none => false) then
    .error .invalidPlateFormat
  else if (match u.patente with
      | some p => db.buses.any (fun b => b.patente == normalizar_patente p && b.id != bus_id)
      | none => false) then
    .error .duplicatePlate
  else if (match u.anio with
      | some a => a < 1980 || a > anio_actual + 1
      | none => false) then
    .error .invalidYear
  else if (match u.capacidad_sentados with
      | some c => c < 1 || c > 45
      | none => false) then
    .error .invalidCapacity
  else if (match u.estado_id with
      | some e => !(db.estados.any (fun x => x.id == e))
      | none => false) then
    .error .unknownState
  else if (match u.tipo_combustible_id with
      | some t => !(db.tipos_combustible.any (fun x => x.id == t))
      | none => false) then
    .error .unknownFuelType
  else if !(tiene_campos u) then
    .error .noFieldsToUpdate
  else
    .ok { db with buses := db.buses.map (fun b =>
      if b.id == bus_id then aplicar_actualizacion b u ahora else b) }

/-- Input shape BusActualizar of schemas/buses.py lines 54 to 77, the pydantic
schema consumed by the repository layer.  It carries no foreign key ids, and
its field bounds are checked by busActualizarSchemaValido. -/
structure BusActualizarSchema where
  patente : Option String := none
  marca : Option String := none
  modelo : Option String := none
  anio : Option Int := none
  capacidad_sentados : Option Int := none
  kilometraje_actual : Option Nat := none
  deriving DecidableEq, Repr

/-- Pydantic validation of BusActualizar (schemas/buses.py): raw plate length
6..10 and normalized plate length 6..8 when supplied, year in 1980..2030 when
supplied, seat capacity strictly positive and at most 100 when supplied.  The
odometer bound of at least 0 holds by the Nat representation. -/
def busActualizarSchemaValido (u : BusActualizarSchema) : Bool :=
  (match u.patente with
    | some p =>
      decide (6 ≤ p.length) && decide (p.length ≤ 10) &&
      decide (6 ≤ (normalizar_patente p).length) &&
      decide ((normalizar_patente p).length ≤ 8)
    | none => true) &&
  (match u.anio with
    | some a => decide ((1980 : Int) ≤ a) && decide (a ≤ 2030)
    | none => true) &&
  (match u.capacidad_sentados with
    | some c => decide ((0 : Int) < c) && decide (c ≤ 100)
    | none => true)

/-- Effect of BusRepository.update applying the supplied schema fields to the
fetched row: the plate is re-normalized, every other supplied field is set as
given, and the ORM onupdate hook touches fecha_actualizacion. -/
def repositorio_aplicar (b : Bus) (u : BusActualizarSchema) (ahora : Nat) : Bus :=
  { b with
    patente := match u.patente with
      | some p => normalizar_patente p
      | none => b.patente
    marca := u.marca.getD b.marca
    modelo := u.modelo.getD b.modelo
    anio := u.anio.getD b.anio
    capacidad_sentados := u.capacidad_sentados.getD b.capacidad_sentados
    kilometraje_actual := match u.kilometraje_actual with
      | some k => some k
      | none => b.kilometraje_actual
    fecha_actualizacion := ahora }

/-- Repository update BusRepository.update (crud/buses.py lines 128 to 159):
fetch the active row by id (None when absent), then apply every supplied field
of the schema and commit.  The schema carries no foreign key ids, so the two
ValueError branches of the source are unreachable, and no capacity or year
re-check happens here: whatever passed the pydantic bounds is stored. -/
def BusRepository.update (db : DB) (ahora : Nat) (bus_id : Nat)
    (u : BusActualizarSchema) : Option (DB × Bus) :=
  match find_by_id db bus_id with
  | none => none
  | some b =>
    some ({ db with buses := db.buses.map (fun x =>
        if x.id == bus_id then repositorio_aplicar x u ahora else x) },
      repositorio_aplicar b u ahora)

/-- Row effect of the soft-delete UPDATE: the row with the matching id gets
esta_activo false and a touched fecha_actualizacion, every other row is left
alone. -/
def marcar_inactivo (bus_id : Nat) (ahora : Nat) (b : Bus) : Bus :=
  if b.id == bus_id then { b with esta_activo := false, fecha_actualizacion := ahora } else b

/-- Row effect of the restore UPDATE: the row with the matching id gets
esta_activo true and a touched fecha_actualizacion, every other row is left
alone. -/
def marcar_activo (bus_id : Nat) (ahora : Nat) (b : Bus) : Bus :=
  if b.id == bus_id then { b with esta_activo := true, fecha_actualizacion := ahora } else b

/-- Soft delete (crud/buses.py soft_delete lines 161 to 169 and the DELETE
handlers of main.py lines 566 to 623 and endpoints/buses.py lines 365 to 399):
when an active row with the id exists, flip esta_activo to false and touch
fecha_actualizacion, answering true; otherwise answer false and leave the
store untouched. -/
def eliminar_bus (db : DB) (ahora : Nat) (bus_id : Nat) : Bool × DB :=
  if db.buses.any (fun b => b.id == bus_id && b.esta_activo) then
    (true, { db with buses := db.buses.map (marcar_inactivo bus_id ahora) })
  else
    (false, db)

/-- Restore handler restaurar_bus (main.py lines 627 to 676 and
endpoints/buses.py lines 462 to 506): when a row with the id exists and is
inactive, flip esta_activo back to true and touch fecha_actualizacion;
otherwise 404. -/
def restaurar_bus (db : DB) (ahora : Nat) (bus_id : Nat) : Except ApiError DB :=
  if db.buses.any (fun b => b.id == bus_id && !b.esta_activo) then
    .ok { db with buses := db.buses.map (marcar_activo bus_id ahora) }
  else
    .error .notFound

/-- Insertion step of the ORDER BY fecha_actualizacion DESC rendering. -/
def insertar_por_fecha (b : Bus) : List Bus → List Bus
  | [] => [b]
  | c :: resto =>
    if c.fecha_actualizacion ≤ b.fecha_actualizacion then b :: c :: resto
    else c :: insertar_por_fecha b resto

/-- Sorts rows by fecha_actualizacion descending (insertion sort). -/
def ordenar_fecha_desc : List Bus → List Bus
  | [] => []
  | b :: resto => insertar_por_fecha b (ordenar_fecha_desc resto)

/-- Deleted-records view listar_buses_eliminados (main.py lines 302 to 343 and
endpoints/buses.py lines 197 to 232): the inactive rows, ordered by
fecha_actualizacion descending. -/
def listar_buses_eliminados (db : DB) : List Bus :=
  ordenar_fecha_desc (db.buses.filter (fun b => !b.esta_activo))

/-- Result record of BusRepository.get_statistics (crud/buses.py lines 171 to
197): total active rows, counts grouped by state name, summed seat capacity,
and the average odometer rounded to two decimals. -/
structure Estadisticas where
  total_buses : Nat
  estados : List (String × Nat)
  capacidad_total_flota : Int
  kilometraje_promedio : ℚ
  deriving DecidableEq, Repr

/-- Rounding to two decimal places applied by the source to the average
odometer.  The source rounds a Python float; on the exact rational mean the
two agree except on exact half-of-a-hundredth ties, which no claim touches. -/
def redondear2 (q : ℚ) : ℚ :=
  (round (q * 100) : ℚ) / 100

/-- Repository statistics BusRepository.get_statistics (crud/buses.py lines
171 to 197).  The per-state counts come from an inner join of estados_buses
with the active buses grouped by state name, so a state with no active bus
contributes no entry.  The summed capacity and the average odometer fall back
to 0 through the SQL NULL coalescing of the source when no row is eligible. -/
def get_statistics (db : DB) : Estadisticas :=
  let activos := db.buses.filter (fun b => b.esta_activo)
  let conKm := activos.filterMap (fun b => b.kilometraje_actual)
  { total_buses := activos.length
    estados := db.estados.filterMap (fun e =>
      let c := (activos.filter (fun b => b.estado_id == e.id)).length
      if c == 0 then none else some (e.nombre, c))
    capacidad_total_flota := (activos.map (fun b => b.capacidad_sentados)).sum
    kilometraje_promedio :=
      if conKm.length == 0 then 0
      else redondear2 (((conKm.map (fun k => (k : ℚ))).sum) / (conKm.length : ℚ)) }

/-- Result record of the statistics endpoint obtener_estadisticas
(endpoints/buses.py lines 510 to 554): it reports totals and per-state counts
but no average odometer. -/
structure EstadisticasEndpoint where
  total_buses : Nat
  total_eliminados : Nat
  por_estado : List (String × Nat)
  capacidad_total_flota : Int
  deriving DecidableEq, Repr

/-- Statistics endpoint obtener_estadisticas (endpoints/buses.py lines 510 to
554).  Its per-state query is a LEFT JOIN from estados_buses onto the active
buses grouped by state, so every known state appears, with count 0 when it has
no active bus.  The source additionally orders the groups by state name; the
claims only concern which pairs appear. -/
def obtener_estadisticas (db : DB) : EstadisticasEndpoint :=
  { total_buses := (db.buses.filter (fun b => b.esta_activo)).length
    total_eliminados := (db.buses.filter (fun b => !b.esta_activo)).length
    por_estado := db.estados.map (fun e =>
      (e.nombre, (db.buses.filter (fun b => b.esta_activo && b.estado_id == e.id)).length))
    capacidad_total_flota :=
      ((db.buses.filter (fun b => b.esta_activo)).map (fun b => b.capacidad_sentados)).sum }

/-- Plate validator validar_patente of BusBase (schemas/buses.py lines 31 to
37), also inlined at the top of both create handlers: normalize the plate and
reject it when the normalized length falls outside 6..8, otherwise answer the
normalized plate. -/
def validar_patente (raw : String) : Except ApiError String :=
  let v := normalizar_patente raw
  if v.length < 6 || v.length > 8 then
    .error .invalidPlateFormat
  else
    .ok v

/-- Seed state row Activo (ESTADOS_INICIALES in models/estados_tipos.py). -/
def estadoACT : EstadoBus :=
  { id := 1, codigo := "ACT", nombre := "Activo" }

/-- Seed state row Mantenimiento (ESTADOS_INICIALES). -/
def estadoMAN : EstadoBus :=
  { id := 2, codigo := "MAN", nombre := "Mantenimiento" }

/-- Seed fuel row Diesel (TIPOS_COMBUSTIBLE_INICIALES). -/
def tipoDSL : TipoCombustible :=
  { id := 1, codigo := "DSL", nombre := "Diesel" }

/-- Sample active bus with odometer 9500, the odometer of the scenario of the
spec. -/
def bus9500 : Bus :=
  { id := 1, patente := "BCDF21", marca := "Volvo", modelo := "B270", anio := 2019,
    capacidad_sentados := 42, estado_id := 1, tipo_combustible_id := 1,
    kilometraje_actual := some 9500 }

/-- Sample active bus with odometer 5000. -/
def bus5000 : Bus :=
  { id := 2, patente := "BCDF22", marca := "Volvo", modelo := "B270", anio := 2019,
    capacidad_sentados := 42, estado_id := 1, tipo_combustible_id := 1,
    kilometraje_actual := some 5000 }

/-- Sample active bus with odometer 10500, just past a 10000 multiple. -/
def bus10500 : Bus :=
  { id := 3, patente := "BCDF23", marca := "Volvo", modelo := "B270", anio := 2019,
    capacidad_sentados := 42, estado_id := 1, tipo_combustible_id := 1,
    kilometraje_actual := some 10500 }

/-- Store holding the three sample odometer buses. -/
def dbC1 : DB :=
  { buses := [bus9500, bus5000, bus10500], estados := [estadoACT],
    tipos_combustible := [tipoDSL] }

/-- Sample active bus with seat capacity 40, update target. -/
def busC2 : Bus :=
  { id := 1, patente := "ABCD12", marca := "Volvo", modelo := "B270", anio := 2019,
    capacidad_sentados := 40, estado_id := 1, tipo_combustible_id := 1,
    kilometraje_actual := some 1000 }

/-- Store holding the capacity-40 bus. -/
def dbC2 : DB :=
  { buses := [busC2], estados := [estadoACT], tipos_combustible := [tipoDSL] }

/-- Partial update request carrying only seat capacity 50, in the pydantic
schema shape consumed by the repository layer. -/
def uC2 : BusActualizarSchema :=
  { capacidad_sentados := some 50 }

/-- Partial update request carrying only seat capacity 50, in the endpoint
shape. -/
def uC2e : BusActualizar :=
  { capacidad_sentados := some 50 }

/-- The capacity-40 bus after the repository applies the capacity-50 update. -/
def busC2' : Bus :=
  repositorio_aplicar busC2 uC2 9

/-- The store after the repository applies the capacity-50 update. -/
def dbC2' : DB :=
  { dbC2 with buses := [busC2'] }

/-- Empty store seeded with one state and one fuel type. -/
def dbC3 : DB :=
  { buses := [], estados := [estadoACT], tipos_combustible := [tipoDSL] }

/-- Create request with seat capacity 45 and all other fields valid. -/
def dC3_45 : BusCrear :=
  { patente := "BCDF21", marca := "Volvo", modelo := "B270", anio := 2019,
    capacidad_sentados := 45, estado_id := 1, tipo_combustible_id := 1 }

/-- Create request with seat capacity 46 and all other fields valid. -/
def dC3_46 : BusCrear :=
  { patente := "BCDF21", marca := "Volvo", modelo := "B270", anio := 2019,
    capacidad_sentados := 46, estado_id := 1, tipo_combustible_id := 1 }

/-- Soft-deleted bus storing the normalized plate ABCD12. -/
def busC4 : Bus :=
  { id := 1, patente := "ABCD12", marca := "Volvo", modelo := "B270", anio := 2018,
    capacidad_sentados := 40, estado_id := 1, tipo_combustible_id := 1,
    kilometraje_actual := some 0, esta_activo := false }

/-- Store whose only bus is the soft-deleted ABCD12 record. -/
def dbC4 : DB :=
  { buses := [busC4], estados := [estadoACT], tipos_combustible := [tipoDSL] }

/-- Create request whose plate abcd 12 normalizes to ABCD12, all other fields
valid. -/
def dC4 : BusCrear :=
  { patente := "abcd 12", marca := "Volvo", modelo := "B7R", anio := 2019,
    capacidad_sentados := 42, estado_id := 1, tipo_combustible_id := 1 }

/-- Sample active bus used to exercise the delete and restore cycle. -/
def busC5 : Bus :=
  { id := 7, patente := "GHJK34", marca := "Scania", modelo := "K310", anio := 2020,
    capacidad_sentados := 44, estado_id := 1, tipo_combustible_id := 1,
    kilometraje_actual := some 120000 }

/-- Store holding the delete-and-restore sample bus. -/
def dbC5 : DB :=
  { buses := [busC5], estados := [estadoACT], tipos_combustible := [tipoDSL] }

/-- Store with one state, one inactive bus and no active bus. -/
def busC7 : Bus :=
  { id := 4, patente := "LMNP56", marca := "Volvo", modelo := "B270", anio := 2015,
    capacidad_sentados := 30, estado_id := 1, tipo_combustible_id := 1,
    kilometraje_actual := some 50000, esta_activo := false }

/-- Store with two known states and only an inactive bus, an empty active
set. -/
def dbC7 : DB :=
  { buses := [busC7], estados := [estadoACT, estadoMAN], tipos_combustible := [tipoDSL] }

/-- Store with one active and one inactive bus, for the read exclusion
witness. -/
def dbC8 : DB :=
  { buses := [busC5, busC7], estados := [estadoACT], tipos_combustible := [tipoDSL] }

/-- Sample bus with odometer 0. -/
def busKm0 : Bus :=
  { id := 9, patente := "QRST78", marca := "Volvo", modelo := "B270", anio := 2021,
    capacidad_sentados := 42, estado_id := 1, tipo_combustible_id := 1,
    kilometraje_actual := some 0 }

theorem mem_insertar_por_fecha (b c : Bus) (l : List Bus) :
    b ∈ insertar_por_fecha c l ↔ b = c ∨ b ∈ l := by
  induction l with
  | nil => simp [insertar_por_fecha]
  | cons d t ih =>
    unfold insertar_por_fecha
    by_cases h : d.fecha_actualizacion ≤ c.fecha_actualizacion
    · simp [h]
    · rw [if_neg h]
      simp only [List.mem_cons, ih]
      tauto

theorem mem_ordenar_fecha_desc (b : Bus) (l : List Bus) :
    b ∈ ordenar_fecha_desc l ↔ b ∈ l := by
  induction l with
  | nil => simp [ordenar_fecha_desc]
  | cons c t ih => simp [ordenar_fecha_desc, mem_insertar_por_fecha, ih]

theorem mem_listar_buses_eliminados (db : DB) (b : Bus) :
    b ∈ listar_buses_eliminados db ↔ b ∈ db.buses ∧ b.esta_activo = false := by
  simp [listar_buses_eliminados, mem_ordenar_fecha_desc, List.mem_filter]

/-- Claim C10: a bus whose odometer is 0 or NULL is never reported as needing
maintenance, whatever the interval: the truthiness guard on the odometer
short-circuits necesita_mantenimiento to False, even though 0 modulo the
interval lies inside the sub-1000 window the predicate otherwise treats as
due. -/
theorem C10_odometro_cero_no_mantenimiento (b : Bus) (limite : Nat)
    (h : b.kilometraje_actual = some 0 ∨ b.kilometraje_actual = none) :
    b.necesita_mantenimiento limite = false ∧ 0 % limite < 1000 := by
  constructor
  · unfold Bus.necesita_mantenimiento
    rcases h with h | h <;> simp [h]
  · have := Nat.zero_mod limite
    omega

theorem C10_witness :
    busKm0.necesita_mantenimiento 10000 = false ∧ 0 % 10000 < 1000 :=
  C10_odometro_cero_no_mantenimiento busKm0 10000 (Or.inl rfl)

/-- Claim C1 counterexample: the active sample bus with odometer 9500 has its
odometer modulo 10000 inside the last 1000 units of the interval, yet
necesita_mantenimiento answers false and the bus is not in the
maintenance-due listing, contrary to the claim that it is reported as due. -/
theorem C1_counterexample :
    bus9500.esta_activo = true ∧
    10000 - 1000 ≤ 9500 % 10000 ∧
    bus9500 ∈ dbC1.buses ∧
    bus9500.necesita_mantenimiento 10000 = false ∧
    bus9500 ∉ list_maintenance_due dbC1 10000 := by
  decide

/-- Claim C1 (amended): for a bus with a stored odometer and an interval of at
least 1000, the maintenance predicate answers true exactly when the odometer
is nonzero and its value modulo the interval is below 1000 - the first, not
the last, 1000 units of the interval - and the maintenance-due listing holds
exactly the active stored records the predicate flags. -/
theorem C1_mantenimiento_ventana_inicial (db : DB) (b : Bus) (k limite : Nat)
    (hk : b.kilometraje_actual = some k) (hl : 1000 ≤ limite) :
    (b.necesita_mantenimiento limite = true ↔ (k ≠ 0 ∧ k % limite < 1000)) ∧
    (b ∈ list_maintenance_due db limite ↔
      b ∈ db.buses ∧ b.esta_activo = true ∧ b.necesita_mantenimiento limite = true) := by
  constructor
  · unfold Bus.necesita_mantenimiento
    rw [hk]
    have hl0 : limite ≠ 0 := by omega
    by_cases hk0 : k = 0
    · subst hk0; simp
    · simp [hk0, hl0]
  · simp [list_maintenance_due, List.mem_filter, Bool.and_eq_true, and_assoc]

theorem C1_mantenimiento_witness :
    (bus10500.necesita_mantenimiento 10000 = true ↔ (10500 ≠ 0 ∧ 10500 % 10000 < 1000)) ∧
    (bus10500 ∈ list_maintenance_due dbC1 10000 ↔
      bus10500 ∈ dbC1.buses ∧ bus10500.esta_activo = true ∧
      bus10500.necesita_mantenimiento 10000 = true) :=
  C1_mantenimiento_ventana_inicial dbC1 bus10500 10500 10000 rfl (by decide)

/-- Claim C9: the plate validator normalizes by uppercasing and stripping
every dash and space, fails with InvalidPlateFormat exactly when the
normalized length falls outside 6..8, and on success answers exactly the
normalized plate. -/
theorem C9_normalizacion_patente (raw : String) :
    (validar_patente raw = Except.ok (normalizar_patente raw) ↔
      6 ≤ (normalizar_patente raw).length ∧ (normalizar_patente raw).length ≤ 8) ∧
    (validar_patente raw = Except.error ApiError.invalidPlateFormat ↔
      ((normalizar_patente raw).length < 6 ∨ 8 < (normalizar_patente raw).length)) ∧
    (∀ s, validar_patente raw = Except.ok s → s = normalizar_patente raw) ∧
    (normalizar_patente raw).data
      = (raw.data.map Char.toUpper).filter (fun c => !(c == '-' || c == ' ')) := by
  unfold validar_patente
  by_cases h : (normalizar_patente raw).length < 6 ∨ 8 < (normalizar_patente raw).length
  · have hc : (decide ((normalizar_patente raw).length < 6)
        || decide ((normalizar_patente raw).length > 8)) = true := by
      rcases h with h | h <;> simp [h]
    rw [if_pos hc]
    refine ⟨?_, ?_, ?_, rfl⟩
    · simp only [reduceCtorEq, false_iff]
      omega
    · simp only [true_iff]
      exact h
    · intro s hs
      exact absurd hs (by simp)
  · have hc : (decide ((normalizar_patente raw).length < 6)
        || decide ((normalizar_patente raw).length > 8)) = false := by
      push_neg at h
      simp [Nat.not_lt.mpr h.1, Nat.not_lt.mpr h.2]
    rw [if_neg (by simp [hc])]
    push_neg at h
    refine ⟨?_, ?_, ?_, rfl⟩
    · simp only [Except.ok.injEq, true_iff]
      exact ⟨h.1, h.2⟩
    · simp only [reduceCtorEq, false_iff]
      omega
    · intro s hs
      exact ((Except.ok.injEq _ _).mp hs).symm

theorem C9_normalizacion_witness :
    validar_patente "ABCD-12" = Except.ok "ABCD12" := by
  have h := (C9_normalizacion_patente "ABCD-12").1
  have : (6 ≤ (normalizar_patente "ABCD-12").length ∧
      (normalizar_patente "ABCD-12").length ≤ 8) := by decide
  have hok := h.mpr this
  rwa [show normalizar_patente "ABCD-12" = "ABCD12" from by decide] at hok

/-- Claim C3: with every other field valid - plate of normalized length 6..8,
year in range, plate not stored, both foreign keys present - creation fails
with InvalidCapacity when the seat capacity is below 1 or above 45, and
succeeds exactly when the capacity lies in 1..45; in particular capacities 0
and 46 always fail and 1 and 45 always succeed. -/
theorem C3_capacidad_creacion (db : DB) (anio_actual : Int) (new_id : Nat) (d : BusCrear)
    (hp1 : 6 ≤ (normalizar_patente d.patente).length)
    (hp2 : (normalizar_patente d.patente).length ≤ 8)
    (hy1 : 1980 ≤ d.anio) (hy2 : d.anio ≤ anio_actual + 1)
    (hdup : ∀ b ∈ db.buses, b.patente ≠ normalizar_patente d.patente)
    (hest : ∃ e ∈ db.estados, e.id = d.estado_id)
    (htip : ∃ t ∈ db.tipos_combustible, t.id = d.tipo_combustible_id) :
    (d.capacidad_sentados < 1 ∨ 45 < d.capacidad_sentados →
      crear_bus db anio_actual new_id d = Except.error ApiError.invalidCapacity) ∧
    ((∃ r, crear_bus db anio_actual new_id d = Except.ok r) ↔
      (1 ≤ d.capacidad_sentados ∧ d.capacidad_sentados ≤ 45)) := by
  have hc1 : (decide ((normalizar_patente d.patente).length < 6)
      || decide ((normalizar_patente d.patente).length > 8)) = false := by
    simp only [Bool.or_eq_false_iff, decide_eq_false_iff_not]
    omega
  have hc2 : (decide (d.anio < 1980) || decide (d.anio > anio_actual + 1)) = false := by
    simp only [Bool.or_eq_false_iff, decide_eq_false_iff_not]
    omega
  have hc4 : db.buses.any (fun b => b.patente == normalizar_patente d.patente) = false := by
    rw [List.any_eq_false]
    intro b hb
    simpa using hdup b hb
  have hc5 : db.estados.any (fun e => e.id == d.estado_id) = true := by
    rw [List.any_eq_true]
    obtain ⟨e, he, heq⟩ := hest
    exact ⟨e, he, by simpa using heq⟩
  have hc6 : db.tipos_combustible.any (fun t => t.id == d.tipo_combustible_id) = true := by
    rw [List.any_eq_true]
    obtain ⟨t, ht, heq⟩ := htip
    exact ⟨t, ht, by simpa using heq⟩
  unfold crear_bus
  rw [if_neg (by rw [hc1]; exact Bool.false_ne_true)]
  rw [if_neg (by rw [hc2]; exact Bool.false_ne_true)]
  by_cases hcap : d.capacidad_sentados < 1 ∨ 45 < d.capacidad_sentados
  · have hc3 : (decide (d.capacidad_sentados < 1)
        || decide (d.capacidad_sentados > 45)) = true := by
      rcases hcap with h | h <;> simp [h]
    rw [if_pos hc3]
    refine ⟨fun _ => rfl, ?_⟩
    constructor
    · rintro ⟨r, hr⟩
      exact absurd hr (by simp)
    · intro hr
      omega
  · have hc3 : (decide (d.capacidad_sentados < 1)
        || decide (d.capacidad_sentados > 45)) = false := by
      simp only [Bool.or_eq_false_iff, decide_eq_false_iff_not]
      omega
    rw [if_neg (by rw [hc3]; exact Bool.false_ne_true)]
    rw [if_neg (by rw [hc4]; exact Bool.false_ne_true)]
    rw [if_neg (by rw [hc5]; simp)]
    rw [if_neg (by rw [hc6]; simp)]
    refine ⟨fun h => absurd h (by omega), ?_⟩
    constructor
    · intro _
      omega
    · intro _
      exact ⟨_, rfl⟩

theorem C3_capacidad_witness :
    (∃ r, crear_bus dbC3 2025 1 dC3_45 = Except.ok r) ∧
    crear_bus dbC3 2025 1 dC3_46 = Except.error ApiError.invalidCapacity := by
  constructor
  · exact (C3_capacidad_creacion dbC3 2025 1 dC3_45 (by decide) (by decide) (by decide)
      (by decide) (by decide) (by decide) (by decide)).2.mpr (by decide)
  · exact (C3_capacidad_creacion dbC3 2025 1 dC3_46 (by decide) (by decide) (by decide)
      (by decide) (by decide) (by decide) (by decide)).1 (by decide)

/-- Claim C4 counterexample: the store holds only a soft-deleted record with
plate ABCD12, every record of the store is inactive, the request plate
abcd 12 normalizes to that same plate, and creation nevertheless fails with
DuplicatePlate - contrary to the claim that a plate matching only a
soft-deleted record does not block creation. -/
theorem C4_counterexample :
    busC4.esta_activo = false ∧
    busC4 ∈ dbC4.buses ∧
    normalizar_patente dC4.patente = busC4.patente ∧
    (∀ b ∈ dbC4.buses, b.esta_activo = false) ∧
    crear_bus dbC4 2025 2 dC4 = Except.error ApiError.duplicatePlate := by
  decide

/-- Claim C4 (amended): under valid plate, year and capacity, create fails
with DuplicatePlate exactly when some stored record - active or soft-deleted
alike, since the uniqueness pre-check queries the whole table with no
esta_activo filter - already stores the same normalized plate; the plates
ABCD-12 and abcd 12 both normalize to ABCD12, so the second of the two
creations fails. -/
theorem C4_patente_duplicada (db : DB) (anio_actual : Int) (new_id : Nat) (d : BusCrear)
    (hp1 : 6 ≤ (normalizar_patente d.patente).length)
    (hp2 : (normalizar_patente d.patente).length ≤ 8)
    (hy1 : 1980 ≤ d.anio) (hy2 : d.anio ≤ anio_actual + 1)
    (hcap1 : 1 ≤ d.capacidad_sentados) (hcap2 : d.capacidad_sentados ≤ 45) :
    (crear_bus db anio_actual new_id d = Except.error ApiError.duplicatePlate ↔
      ∃ b ∈ db.buses, b.patente = normalizar_patente d.patente) ∧
    normalizar_patente "ABCD-12" = "ABCD12" ∧
    normalizar_patente "abcd 12" = "ABCD12" := by
  refine ⟨?_, by decide, by decide⟩
  have hc1 : (decide ((normalizar_patente d.patente).length < 6)
      || decide ((normalizar_patente d.patente).length > 8)) = false := by
    simp only [Bool.or_eq_false_iff, decide_eq_false_iff_not]
    omega
  have hc2 : (decide (d.anio < 1980) || decide (d.anio > anio_actual + 1)) = false := by
    simp only [Bool.or_eq_false_iff, decide_eq_false_iff_not]
    omega
  have hc3 : (decide (d.capacidad_sentados < 1)
      || decide (d.capacidad_sentados > 45)) = false := by
    simp only [Bool.or_eq_false_iff, decide_eq_false_iff_not]
    omega
  unfold crear_bus
  rw [if_neg (by rw [hc1]; exact Bool.false_ne_true)]
  rw [if_neg (by rw [hc2]; exact Bool.false_ne_true)]
  rw [if_neg (by rw [hc3]; exact Bool.false_ne_true)]
  by_cases hdup : db.buses.any (fun b => b.patente == normalizar_patente d.patente) = true
  · rw [if_pos hdup]
    rw [List.any_eq_true] at hdup
    obtain ⟨b, hb, hbeq⟩ := hdup
    exact iff_of_true rfl ⟨b, hb, by simpa using hbeq⟩
  · rw [if_neg hdup]
    rw [Bool.not_eq_true, List.any_eq_false] at hdup
    constructor
    · intro h
      exfalso
      split_ifs at h <;> simp at h
    · rintro ⟨b, hb, hbeq⟩
      exact absurd (by simpa using hbeq) (hdup b hb)

theorem C4_patente_duplicada_witness :
    crear_bus dbC4 2025 2 dC4 = Except.error ApiError.duplicatePlate ↔
      ∃ b ∈ dbC4.buses, b.patente = normalizar_patente dC4.patente :=
  (C4_patente_duplicada dbC4 2025 2 dC4 (by decide) (by decide) (by decide) (by decide)
    (by decide) (by decide)).1

theorem find_by_id_eq_none (db : DB) (i : Nat)
    (h : ∀ b ∈ db.buses, ¬(b.id = i ∧ b.esta_activo = true)) :
    find_by_id db i = none := by
  unfold find_by_id
  rw [List.head?_eq_none_iff, List.filter_eq_nil_iff]
  intro b hb
  simpa using h b hb

theorem find_by_id_isSome_of_mem (db : DB) (i : Nat) (b : Bus)
    (hb : b ∈ db.buses) (hid : b.id = i) (hact : b.esta_activo = true) :
    ∃ c, find_by_id db i = some c ∧ c.esta_activo = true := by
  unfold find_by_id
  cases hfl : db.buses.filter (fun x => x.id == i && x.esta_activo) with
  | nil =>
    exfalso
    have hmem : b ∈ db.buses.filter (fun x => x.id == i && x.esta_activo) := by
      rw [List.mem_filter]
      exact ⟨hb, by simp [hid, hact]⟩
    rw [hfl] at hmem
    exact absurd hmem (List.not_mem_nil b)
  | cons c t =>
    refine ⟨c, rfl, ?_⟩
    have hc : c ∈ db.buses.filter (fun x => x.id == i && x.esta_activo) := by
      rw [hfl]
      exact List.mem_cons_self c t
    rw [List.mem_filter] at hc
    have h2 := hc.2
    rw [Bool.and_eq_true] at h2
    exact h2.2

/-- Claim C5: starting from a store holding an active record with id i,
soft delete answers true and afterwards find_by_id answers none while the
record appears in the deleted view; a subsequent restore succeeds, after
which find_by_id answers an active record again and no record with that id
remains in the deleted view. -/
theorem C5_ciclo_eliminar_restaurar (db : DB) (ahora ahora2 i : Nat)
    (h : ∃ b ∈ db.buses, b.id = i ∧ b.esta_activo = true) :
    (eliminar_bus db ahora i).fst = true ∧
    find_by_id (eliminar_bus db ahora i).snd i = none ∧
    (∃ b ∈ listar_buses_eliminados (eliminar_bus db ahora i).snd, b.id = i) ∧
    (∃ db2, restaurar_bus (eliminar_bus db ahora i).snd ahora2 i = Except.ok db2 ∧
      (∃ b, find_by_id db2 i = some b ∧ b.esta_activo = true) ∧
      (∀ b ∈ listar_buses_eliminados db2, b.id ≠ i)) := by
  obtain ⟨b0, hb0, hid0, hact0⟩ := h
  have hany : db.buses.any (fun b => b.id == i && b.esta_activo) = true := by
    rw [List.any_eq_true]
    exact ⟨b0, hb0, by simp [hid0, hact0]⟩
  have helim : eliminar_bus db ahora i
      = (true, { db with buses := db.buses.map (marcar_inactivo i ahora) }) := by
    unfold eliminar_bus
    rw [if_pos hany]
  rw [helim]
  refine ⟨rfl, ?_, ?_, ?_⟩
  · apply find_by_id_eq_none
    intro x hx
    obtain ⟨y, hy, rfl⟩ := List.mem_map.mp hx
    by_cases hyi : y.id = i
    · simp [marcar_inactivo, hyi]
    · simp [marcar_inactivo, hyi]
  · refine ⟨marcar_inactivo i ahora b0, ?_, ?_⟩
    · rw [mem_listar_buses_eliminados]
      exact ⟨List.mem_map_of_mem _ hb0, by simp [marcar_inactivo, hid0]⟩
    · simp [marcar_inactivo, hid0]
  · have hany2 : (db.buses.map (marcar_inactivo i ahora)).any
        (fun b => b.id == i && !b.esta_activo) = true := by
      rw [List.any_eq_true]
      refine ⟨marcar_inactivo i ahora b0, List.mem_map_of_mem _ hb0, ?_⟩
      simp [marcar_inactivo, hid0]
    refine ⟨{ db with
        buses := (db.buses.map (marcar_inactivo i ahora)).map (marcar_activo i ahora2) },
      ?_, ?_, ?_⟩
    · unfold restaurar_bus
      dsimp only
      rw [if_pos hany2]
    · apply find_by_id_isSome_of_mem _ _ (marcar_activo i ahora2 (marcar_inactivo i ahora b0))
      · exact List.mem_map_of_mem _ (List.mem_map_of_mem _ hb0)
      · simp [marcar_activo, marcar_inactivo, hid0]
      · simp [marcar_activo, marcar_inactivo, hid0]
    · intro b hb
      rw [mem_listar_buses_eliminados] at hb
      obtain ⟨hbmem, hbact⟩ := hb
      obtain ⟨y, hy, rfl⟩ := List.mem_map.mp hbmem
      by_cases hyi : y.id = i
      · simp [marcar_activo, hyi] at hbact
      · simp [marcar_activo, hyi]

theorem C5_ciclo_witness :
    (eliminar_bus dbC5 5 7).fst = true ∧
    find_by_id (eliminar_bus dbC5 5 7).snd 7 = none ∧
    (∃ b ∈ listar_buses_eliminados (eliminar_bus dbC5 5 7).snd, b.id = 7) ∧
    (∃ db2, restaurar_bus (eliminar_bus dbC5 5 7).snd 6 7 = Except.ok db2 ∧
      (∃ b, find_by_id db2 7 = some b ∧ b.esta_activo = true) ∧
      (∀ b ∈ listar_buses_eliminados db2, b.id ≠ 7)) :=
  C5_ciclo_eliminar_restaurar dbC5 5 6 7 ⟨busC5, by decide, by decide, by decide⟩

/-- Claim C6: soft delete answers true exactly when an active record with
the id exists, in which case every stored row with that id ends inactive with
the touched timestamp; when it answers false the store is untouched; and a
second soft delete of the same id always answers false rather than failing. -/
theorem C6_soft_delete_booleano (db : DB) (ahora ahora2 i : Nat) :
    ((eliminar_bus db ahora i).fst = true ↔
      ∃ b ∈ db.buses, b.id = i ∧ b.esta_activo = true) ∧
    ((eliminar_bus db ahora i).fst = true →
      ∀ b ∈ (eliminar_bus db ahora i).snd.buses, b.id = i →
        b.esta_activo = false ∧ b.fecha_actualizacion = ahora) ∧
    ((eliminar_bus db ahora i).fst = false → (eliminar_bus db ahora i).snd = db) ∧
    (eliminar_bus (eliminar_bus db ahora i).snd ahora2 i).fst = false := by
  by_cases hany : db.buses.any (fun b => b.id == i && b.esta_activo) = true
  · have helim : eliminar_bus db ahora i
        = (true, { db with buses := db.buses.map (marcar_inactivo i ahora) }) := by
      unfold eliminar_bus
      rw [if_pos hany]
    rw [helim]
    refine ⟨?_, ?_, ?_, ?_⟩
    · constructor
      · intro _
        obtain ⟨b, hb, hp⟩ := List.any_eq_true.mp hany
        exact ⟨b, hb, by simpa using hp⟩
      · intro _
        rfl
    · intro _ b hb hbi
      obtain ⟨y, hy, rfl⟩ := List.mem_map.mp hb
      by_cases hyi : y.id = i
      · constructor <;> simp [marcar_inactivo, hyi]
      · exfalso
        apply hyi
        rw [marcar_inactivo, if_neg (by simpa using hyi)] at hbi
        exact hbi
    · intro hfalse
      simp at hfalse
    · have hnone : ¬((db.buses.map (marcar_inactivo i ahora)).any
          (fun b => b.id == i && b.esta_activo) = true) := by
        rw [List.any_eq_true]
        rintro ⟨x, hx, hp⟩
        obtain ⟨y, hy, rfl⟩ := List.mem_map.mp hx
        by_cases hyi : y.id = i
        · simp [marcar_inactivo, hyi] at hp
        · simp [marcar_inactivo, hyi] at hp
      unfold eliminar_bus
      dsimp only
      rw [if_neg hnone]
  · have helim : eliminar_bus db ahora i = (false, db) := by
      unfold eliminar_bus
      rw [if_neg hany]
    rw [helim]
    refine ⟨?_, fun hcontra => by simp at hcontra, fun _ => rfl, ?_⟩
    · constructor
      · intro hcontra
        simp at hcontra
      · rintro ⟨b, hb, hbi, hba⟩
        exfalso
        apply hany
        rw [List.any_eq_true]
        exact ⟨b, hb, by simp [hbi, hba]⟩
    · unfold eliminar_bus
      dsimp only
      rw [if_neg hany]

theorem C6_soft_delete_witness :
    ((eliminar_bus dbC5 5 9).fst = true ↔
      ∃ b ∈ dbC5.buses, b.id = 9 ∧ b.esta_activo = true) ∧
    ((eliminar_bus dbC5 5 9).fst = true →
      ∀ b ∈ (eliminar_bus dbC5 5 9).snd.buses, b.id = 9 →
        b.esta_activo = false ∧ b.fecha_actualizacion = 5) ∧
    ((eliminar_bus dbC5 5 9).fst = false → (eliminar_bus dbC5 5 9).snd = dbC5) ∧
    (eliminar_bus (eliminar_bus dbC5 5 9).snd 6 9).fst = false :=
  C6_soft_delete_booleano dbC5 5 6 9

/-- Claim C7 counterexample: in a store whose active set is empty but which
knows the state Activo, the repository statistics answer an empty per-state
map, so the known state Activo does not appear with count 0, contrary to the
claim that active_by_state contains every known state with count 0. -/
theorem C7_counterexample :
    (∀ b ∈ dbC7.buses, b.esta_activo = false) ∧
    (get_statistics dbC7).total_buses = 0 ∧
    estadoACT ∈ dbC7.estados ∧
    (get_statistics dbC7).estados = [] ∧
    ("Activo", 0) ∉ (get_statistics dbC7).estados := by
  decide

/-- Claim C7 (amended): when the active set is empty the repository
statistics answer total 0, total capacity 0, average mileage 0 and an empty
per-state map - its inner join keeps a state only when the state has at least
one active bus, as the final conjunct states in general - while the
statistics endpoint, which reports no average, does list every known state
with count 0. -/
theorem C7_estadisticas_vacias (db : DB)
    (h : ∀ b ∈ db.buses, b.esta_activo = false) :
    (get_statistics db).total_buses = 0 ∧
    (get_statistics db).capacidad_total_flota = 0 ∧
    (get_statistics db).kilometraje_promedio = 0 ∧
    (get_statistics db).estados = [] ∧
    (obtener_estadisticas db).total_buses = 0 ∧
    (obtener_estadisticas db).capacidad_total_flota = 0 ∧
    (obtener_estadisticas db).por_estado = db.estados.map (fun e => (e.nombre, 0)) ∧
    (∀ (dbx : DB) (p : String × Nat), p ∈ (get_statistics dbx).estados → 0 < p.snd) := by
  have hfil : db.buses.filter (fun b => b.esta_activo) = [] := by
    rw [List.filter_eq_nil_iff]
    intro b hb
    simp [h b hb]
  refine ⟨?_, ?_, ?_, ?_, ?_, ?_, ?_, ?_⟩
  · simp [get_statistics, hfil]
  · simp [get_statistics, hfil]
  · simp [get_statistics, hfil]
  · simp [get_statistics, hfil]
  · simp [obtener_estadisticas, hfil]
  · simp [obtener_estadisticas, hfil]
  · unfold obtener_estadisticas
    dsimp only
    apply List.map_congr_left
    intro e _
    have : db.buses.filter (fun b => b.esta_activo && b.estado_id == e.id) = [] := by
      rw [List.filter_eq_nil_iff]
      intro b hb
      simp [h b hb]
    rw [this]
    rfl
  · intro dbx p hp
    simp only [get_statistics, List.mem_filterMap] at hp
    obtain ⟨e, he, hfe⟩ := hp
    split at hfe
    · cases hfe
    · next h0 =>
      cases hfe
      simp only [beq_iff_eq] at h0
      simpa using Nat.pos_of_ne_zero h0

theorem C7_estadisticas_witness :
    (get_statistics dbC7).total_buses = 0 ∧
    (get_statistics dbC7).capacidad_total_flota = 0 ∧
    (get_statistics dbC7).kilometraje_promedio = 0 ∧
    (get_statistics dbC7).estados = [] ∧
    (obtener_estadisticas dbC7).total_buses = 0 ∧
    (obtener_estadisticas dbC7).capacidad_total_flota = 0 ∧
    (obtener_estadisticas dbC7).por_estado = dbC7.estados.map (fun e => (e.nombre, 0)) ∧
    (∀ (dbx : DB) (p : String × Nat), p ∈ (get_statistics dbx).estados → 0 < p.snd) :=
  C7_estadisticas_vacias dbC7 (by decide)

/-- Claim C8: every normal read, list and search operation - the paginated
listing, the id and plate lookups, the state, make and general searches -
yields only records with esta_activo true, so a soft-deleted record never
appears in them. -/
theorem C8_lecturas_excluyen_inactivos (db : DB) :
    (∀ skip limit b, b ∈ find_all_with_details db skip limit → b.esta_activo = true) ∧
    (∀ i b, find_by_id db i = some b → b.esta_activo = true) ∧
    (∀ p b, find_by_patente db p = some b → b.esta_activo = true) ∧
    (∀ c b, b ∈ find_by_estado_codigo db c → b.esta_activo = true) ∧
    (∀ m b, b ∈ find_by_marca db m → b.esta_activo = true) ∧
    (∀ t b, b ∈ search db t → b.esta_activo = true) := by
  refine ⟨?_, ?_, ?_, ?_, ?_, ?_⟩
  · intro skip limit b hb
    unfold find_all_with_details at hb
    have h1 := List.mem_of_mem_take hb
    have h2 := List.mem_of_mem_drop h1
    exact (List.mem_filter.mp h2).2
  · intro i b hb
    unfold find_by_id at hb
    have hmem := List.mem_of_mem_head? (Option.mem_def.mpr hb)
    have hp := (List.mem_filter.mp hmem).2
    rw [Bool.and_eq_true] at hp
    exact hp.2
  · intro p b hb
    unfold find_by_patente at hb
    have hmem := List.mem_of_mem_head? (Option.mem_def.mpr hb)
    have hp := (List.mem_filter.mp hmem).2
    rw [Bool.and_eq_true] at hp
    exact hp.2
  · intro c b hb
    have hp := (List.mem_filter.mp hb).2
    rw [Bool.and_eq_true] at hp
    exact hp.2
  · intro m b hb
    have hp := (List.mem_filter.mp hb).2
    rw [Bool.and_eq_true] at hp
    exact hp.2
  · intro t b hb
    have hp := (List.mem_filter.mp hb).2
    rw [Bool.and_eq_true] at hp
    exact hp.2

theorem C8_lecturas_witness :
    busC5.esta_activo = true :=
  (C8_lecturas_excluyen_inactivos dbC8).2.1 7 busC5 (by decide)

/-- Claim C2 counterexample: the pydantic update schema accepts seat capacity
50 (its bound is 0 < c and c at most 100) and BusRepository.update applies it
with no further capacity check, so updating the stored capacity-40 record
succeeds and a subsequent find_by_id reads back capacity 50 - contrary to the
claim that the update fails with InvalidCapacity and leaves the record
unchanged. -/
theorem C2_counterexample :
    busActualizarSchemaValido uC2 = true ∧
    uC2.capacidad_sentados = some 50 ∧
    find_by_id dbC2 1 = some busC2 ∧
    busC2.capacidad_sentados = 40 ∧
    BusRepository.update dbC2 9 1 uC2 = some (dbC2', busC2') ∧
    busC2'.capacidad_sentados = 50 ∧
    find_by_id dbC2' 1 = some busC2' := by
  decide

/-- Claim C2 (amended): the main application update endpoint does reject a
partial update whose seat capacity is 50 with InvalidCapacity, before any
write: given an active stored record and a request carrying capacity 50 and
no plate or year field, actualizar_bus answers exactly that error and
produces no modified store, so a subsequent get_by_id still reads the prior
record.  The repository-layer update cited by the claim, by contrast, accepts
capacity 50, as the counterexample shows. -/
theorem C2_actualizar_capacidad (db : DB) (anio_actual : Int) (ahora i : Nat)
    (u : BusActualizar) (b : Bus)
    (hfind : find_by_id db i = some b)
    (hp : u.patente = none) (hy : u.anio = none)
    (hcap : u.capacidad_sentados = some 50) :
    actualizar_bus db anio_actual ahora i u = Except.error ApiError.invalidCapacity := by
  unfold find_by_id at hfind
  have hbmem := List.mem_of_mem_head? (Option.mem_def.mpr hfind)
  have hbp := List.mem_filter.mp hbmem
  have hany : db.buses.any (fun x => x.id == i && x.esta_activo) = true := by
    rw [List.any_eq_true]
    exact ⟨b, hbp.1, hbp.2⟩
  unfold actualizar_bus
  rw [if_neg (by rw [hany]; simp)]
  rw [hp, hy, hcap]
  rfl

theorem C2_actualizar_witness :
    actualizar_bus dbC2 2025 9 1 uC2e = Except.error ApiError.invalidCapacity :=
  C2_actualizar_capacidad dbC2 2025 9 1 uC2e busC2 (by decide) rfl rfl rfl
